import Mathlib

/-!
Verification development for the MedIntel backend (FastAPI + MongoDB + Gemini).

The Python sources under `backend/` are shallowly embedded below:

* `app/utils/helpers.py` — `prepare_for_mongo`, `detect_language_preference`;
* `server.py` — the monolithic variant's `detect_language_preference`,
  `prepare_for_mongo`, `CONFIRMATION_MESSAGES`, `broadcast_message`,
  `get_ai_response` history loading, `send_message`, `websocket_endpoint`,
  `delete_chat_session`;
* `app/services/ai_service.py` — `_load_chat_history`,
  `AIService.generate_response` (model fallback + retry/backoff);
* `app/websocket.py` — `ConnectionManager.broadcast`, `handle_websocket`;
* `app/routes/chat.py` — `send_message`, `delete_chat_session`;
* `app/config.py` — the AI retry/model constants.

Pure functions are translated as Lean functions; effectful handlers are
translated as functions from their inputs (session lookup result, backend
oracle outcomes) to the ordered list of store/broadcast actions they perform,
together with their return value or raised HTTP error.
-/

namespace MedIntel

/-! ### Python string semantics

`pyLower` models `str.lower()` (the inputs relevant here are ASCII or
caseless scripts, where Python's `lower` agrees with ASCII lowercasing).
`isWordChar` models the `\w` class of Python's `re` module for the
character sets appearing in the language tables: ASCII alphanumerics and
underscore are word characters, and all non-ASCII code points occurring in
the patterns (Indic/Arabic/CJK letters) are treated as word characters. -/

def pyLower (s : String) : String := String.mk (s.data.map Char.toLower)

def isWordChar (c : Char) : Bool :=
  c.isAlphanum || c == '_' || 128 ≤ c.toNat

def wordOpt : Option Char → Bool
  | none => false
  | some c => isWordChar c

/-- Plain substring search (`re.search` on a pattern with no anchors,
or Python's `in` operator), on character lists. -/
def listInfix (pat : List Char) : List Char → Bool
  | [] => pat.isEmpty
  | c :: cs => pat.isPrefixOf (c :: cs) || listInfix pat cs

/-- Does `pat` match at the start of `s`, with a `\b` word boundary on both
sides?  `prev` is the character immediately before `s` in the full subject
(`none` at the start of the subject).  A `\b` holds where exactly one of the
two adjacent positions is a word character; positions beyond the ends of the
subject count as non-word. -/
def bMatchHere (pat s : List Char) (prev : Option Char) : Bool :=
  pat.isPrefixOf s &&
  (wordOpt prev != wordOpt pat.head?) &&
  (wordOpt pat.getLast? != wordOpt (s.drop pat.length).head?)

/-- Scan `s` for a `\b`-delimited occurrence of `pat`. -/
def bSearchAux (pat : List Char) (prev : Option Char) : List Char → Bool
  | [] => bMatchHere pat [] prev
  | c :: cs => bMatchHere pat (c :: cs) prev || bSearchAux pat (some c) cs

/-- One regex pattern from the language tables.  Every pattern in the source
is either `\b(a₁|a₂|…)\b` (`bounded := true`) or `(a₁|a₂|…)` with literal
alternatives (`bounded := false`); `re.IGNORECASE` is immaterial because the
subject is lower-cased first and the alternatives contain no ASCII
uppercase. -/
structure RePat where
  bounded : Bool
  alts : List String
deriving DecidableEq

/-- `re.search(pattern, text)` for the pattern shapes of the source tables. -/
def reSearch (p : RePat) (text : String) : Bool :=
  p.alts.any fun a =>
    if p.bounded then bSearchAux a.data none text.data
    else listInfix a.data text.data

/-! ### Language tables -/

/-- `SUPPORTED_LANGUAGES` from `server.py` (the same list appears in the
modular constants module). -/
def SUPPORTED_LANGUAGES : List String := [
  "english", "hindi", "spanish", "tamil", "telugu", "kannada", "malayalam",
  "punjabi", "gujarati", "marathi", "bengali", "odia", "assamese", "urdu",
  "chinese", "arabic", "japanese"
]

/-- `language_patterns` from `app/utils/helpers.py`
(`detect_language_preference`), in source order. -/
def languagePatterns : List (String × List RePat) := [
  ("english", [⟨true, ["english", "speak english", "talk in english", "use english"]⟩]),
  ("hindi", [⟨true, ["hindi", "हिंदी", "हिन्दी", "speak hindi", "talk in hindi", "use hindi"]⟩, ⟨false, ["मुझसे हिंदी में बात करो", "हिंदी में बोलो"]⟩]),
  ("spanish", [⟨true, ["spanish", "español", "espanol", "speak spanish", "talk in spanish", "use spanish"]⟩, ⟨false, ["habla español", "en español"]⟩]),
  ("tamil", [⟨true, ["tamil", "தமிழ்", "speak tamil", "talk in tamil", "use tamil"]⟩, ⟨false, ["தமிழில் பேசு", "தமிழில் பேசவும்"]⟩]),
  ("telugu", [⟨true, ["telugu", "తెలుగు", "speak telugu", "talk in telugu", "use telugu"]⟩, ⟨false, ["తెలుగులో మాట్లాడు", "తెలుగులో మాట్లాడండి"]⟩]),
  ("kannada", [⟨true, ["kannada", "ಕನ್ನಡ", "speak kannada", "talk in kannada", "use kannada"]⟩, ⟨false, ["ಕನ್ನಡದಲ್ಲಿ ಮಾತನಾಡಿ"]⟩]),
  ("malayalam", [⟨true, ["malayalam", "മലയാളം", "speak malayalam", "talk in malayalam", "use malayalam"]⟩, ⟨false, ["മലയാളത്തിൽ സംസാരിക്കുക", "മലയാളത്തിൽ സംസാരിക്കൂ"]⟩]),
  ("punjabi", [⟨true, ["punjabi", "ਪੰਜਾਬੀ", "speak punjabi", "talk in punjabi", "use punjabi"]⟩, ⟨false, ["ਪੰਜਾਬੀ ਵਿੱਚ ਗੱਲ ਕਰੋ"]⟩]),
  ("gujarati", [⟨true, ["gujarati", "ગુજરાતી", "speak gujarati", "talk in gujarati", "use gujarati"]⟩, ⟨false, ["ગુજરાતીમાં વાત કરો"]⟩]),
  ("marathi", [⟨true, ["marathi", "मराठी", "speak marathi", "talk in marathi", "use marathi"]⟩, ⟨false, ["मराठीत बोल"]⟩]),
  ("bengali", [⟨true, ["bengali", "বাংলা", "speak bengali", "talk in bengali", "use bengali"]⟩, ⟨false, ["বাংলায় কথা বলুন"]⟩]),
  ("odia", [⟨true, ["odia", "ଓଡ଼ିଆ", "speak odia", "talk in odia", "use odia"]⟩, ⟨false, ["ଓଡ଼ିଆରେ କଥା ହୁଅନ୍ତୁ"]⟩]),
  ("assamese", [⟨true, ["assamese", "অসমীয়া", "speak assamese", "talk in assamese", "use assamese"]⟩, ⟨false, ["অসমীয়াত কথা পাতক"]⟩]),
  ("urdu", [⟨true, ["urdu", "اردو", "speak urdu", "talk in urdu", "use urdu"]⟩]),
  ("chinese", [⟨true, ["chinese", "中文", "speak chinese", "talk in chinese", "use chinese"]⟩]),
  ("arabic", [⟨true, ["arabic", "عربية", "speak arabic", "talk in arabic", "use arabic"]⟩]),
  ("japanese", [⟨true, ["japanese", "日本語", "speak japanese", "talk in japanese", "use japanese"]⟩])
]

/-- `patterns` from `server.py`'s `detect_language_preference`, in source
order (one pattern per language). -/
def serverPatterns : List (String × RePat) := [
  ("english", ⟨true, ["english", "अंग्रेजी", "english"]⟩),
  ("hindi", ⟨true, ["hindi", "हिंदी", "हिन्दी"]⟩),
  ("spanish", ⟨true, ["spanish", "español", "espanol"]⟩),
  ("tamil", ⟨true, ["tamil", "தமிழ்"]⟩),
  ("telugu", ⟨true, ["telugu", "తెలుగు"]⟩),
  ("kannada", ⟨true, ["kannada", "ಕನ್ನಡ"]⟩),
  ("malayalam", ⟨true, ["malayalam", "മലയാളം"]⟩),
  ("punjabi", ⟨true, ["punjabi", "ਪੰਜਾਬੀ"]⟩),
  ("gujarati", ⟨true, ["gujarati", "ગુજરાતી"]⟩),
  ("marathi", ⟨true, ["marathi", "मराठी"]⟩),
  ("bengali", ⟨true, ["bengali", "বাংলা"]⟩),
  ("odia", ⟨true, ["odia", "ଓଡ଼ିଆ"]⟩),
  ("assamese", ⟨true, ["assamese", "অসমীয়া"]⟩),
  ("urdu", ⟨true, ["urdu", "اردو"]⟩),
  ("chinese", ⟨true, ["chinese", "中文"]⟩),
  ("arabic", ⟨true, ["arabic", "العربية"]⟩),
  ("japanese", ⟨true, ["japanese", "日本語"]⟩)
]

/-- `detect_language_preference` from `app/utils/helpers.py`: returns the
first language (table order) one of whose patterns matches the lower-cased
message; `None` on empty input or no match.  (The source's `except re.error`
branch is dead: every pattern in the table is a valid regex.) -/
def detect_language_preference (msg : String) : Option String :=
  if msg.data.isEmpty then none
  else
    let messageLower := pyLower msg
    languagePatterns.findSome? fun lp =>
      if lp.2.any (fun p => reSearch p messageLower) then some lp.1 else none

/-- `detect_language_preference` from `server.py`. -/
def server_detect_language_preference (message : String) : Option String :=
  if message.data.isEmpty then none
  else
    let messageLower := pyLower message
    serverPatterns.findSome? fun lp =>
      if reSearch lp.2 messageLower then some lp.1 else none

/-- The spec's reading of the detector: "the first language (table order) any
of whose patterns matches the lower-cased text, or none when the text is
empty or no pattern matches" — stated with `List.find?` for comparison with
the source's early-return loop. -/
def detectFirstMatch (table : List (String × List RePat)) (msg : String) :
    Option String :=
  if msg.data.isEmpty then none
  else (table.find? fun lp => lp.2.any fun p => reSearch p (pyLower msg)).map (·.1)

/-- The same spec reading for the `server.py` table shape. -/
def serverDetectFirstMatch (table : List (String × RePat)) (msg : String) :
    Option String :=
  if msg.data.isEmpty then none
  else (table.find? fun lp => reSearch lp.2 (pyLower msg)).map (·.1)

theorem findSome_if_eq_find {α β : Type _} (p : α → Bool) (f : α → β) :
    ∀ l : List α,
      (l.findSome? fun a => if p a then some (f a) else none) = (l.find? p).map f
  | [] => rfl
  | a :: as => by
    by_cases h : p a <;>
      simp [List.findSome?_cons, List.find?_cons, h, findSome_if_eq_find p f as]

theorem findSome_if_mem_map {α β : Type _} {p : α → Bool} {f : α → β}
    {l : List α} {b : β}
    (h : (l.findSome? fun a => if p a then some (f a) else none) = some b) :
    b ∈ l.map f := by
  rw [findSome_if_eq_find] at h
  obtain ⟨a, ha, rfl⟩ := Option.map_eq_some'.mp h
  exact List.mem_map_of_mem f (List.mem_of_find?_eq_some ha)

/-- C6: for every supported language `L`, both detector variants map
`"please speak " ++ L` to `L`; the empty message yields `none`; and on every
input each detector returns the first language in its fixed table order any
of whose patterns matches the lower-cased text (`none` when no pattern
matches). -/
theorem detect_language_preference_spec :
    (∀ l ∈ SUPPORTED_LANGUAGES,
        detect_language_preference ("please speak " ++ l) = some l ∧
        server_detect_language_preference ("please speak " ++ l) = some l) ∧
    detect_language_preference "" = none ∧
    server_detect_language_preference "" = none ∧
    (∀ msg, detect_language_preference msg = detectFirstMatch languagePatterns msg) ∧
    (∀ msg, server_detect_language_preference msg
              = serverDetectFirstMatch serverPatterns msg) := by
  refine ⟨by decide, rfl, rfl, fun msg => ?_, fun msg => ?_⟩
  · unfold detect_language_preference detectFirstMatch
    by_cases h : msg.data.isEmpty
    · simp [h]
    · simp only [h, Bool.false_eq_true, if_false]
      exact findSome_if_eq_find
        (p := fun lp : String × List RePat =>
          lp.2.any fun p => reSearch p (pyLower msg))
        (f := fun lp => lp.1) languagePatterns
  · unfold server_detect_language_preference serverDetectFirstMatch
    by_cases h : msg.data.isEmpty
    · simp [h]
    · simp only [h, Bool.false_eq_true, if_false]
      exact findSome_if_eq_find
        (p := fun lp : String × RePat => reSearch lp.2 (pyLower msg))
        (f := fun lp => lp.1) serverPatterns

/-- Witness for C6 at a concrete supported language. -/
theorem detect_language_preference_spec_witness :
    detect_language_preference "please speak hindi" = some "hindi" ∧
    server_detect_language_preference "please speak hindi" = some "hindi" :=
  detect_language_preference_spec.1 "hindi" (by decide)

/-- C9: whenever either detector variant returns a value, that value belongs
to the fixed 17-language `SUPPORTED_LANGUAGES` set. -/
theorem detect_language_preference_supported :
    (∀ msg l, detect_language_preference msg = some l →
        l ∈ SUPPORTED_LANGUAGES) ∧
    (∀ msg l, server_detect_language_preference msg = some l →
        l ∈ SUPPORTED_LANGUAGES) := by
  constructor
  · intro msg l h
    unfold detect_language_preference at h
    by_cases he : msg.data.isEmpty
    · simp [he] at h
    · simp only [he, if_false] at h
      have hk := findSome_if_mem_map (f := fun lp : String × List RePat => lp.1) h
      have hsub : ∀ x ∈ languagePatterns.map (fun lp => lp.1),
          x ∈ SUPPORTED_LANGUAGES := by decide
      exact hsub l hk
  · intro msg l h
    unfold server_detect_language_preference at h
    by_cases he : msg.data.isEmpty
    · simp [he] at h
    · simp only [he, if_false] at h
      have hk := findSome_if_mem_map (f := fun lp : String × RePat => lp.1) h
      have hsub : ∀ x ∈ serverPatterns.map (fun lp => lp.1),
          x ∈ SUPPORTED_LANGUAGES := by decide
      exact hsub l hk

/-- Witness for C9 at a concrete message. -/
theorem detect_language_preference_supported_witness :
    "hindi" ∈ SUPPORTED_LANGUAGES :=
  detect_language_preference_supported.1 "hindi" "hindi" (by decide)

/-! ### `prepare_for_mongo`

Python dictionary values are embedded as `MVal`: a datetime (carrying the
string its `isoformat()` would produce), a string, any other non-datetime
non-dict value (opaque tag), or a nested dictionary.  `MDict` is the ordered
key/value list of a dictionary. -/

mutual
inductive MVal where
  | dt (iso : String)
  | str (s : String)
  | other (tag : Nat)
  | dict (d : MDict)
deriving DecidableEq
inductive MDict where
  | nil
  | cons (key : String) (v : MVal) (rest : MDict)
deriving DecidableEq
end

mutual
/-- `prepare_for_mongo` from `app/utils/helpers.py`: on a dict, convert each
datetime value to its ISO string and recurse into dict values (in-place
mutation in the source, value-level here); any non-dict argument is returned
unchanged. -/
def prepare_for_mongo : MVal → MVal
  | .dict d => .dict (prepareEntries d)
  | v => v

/-- The entry loop of `prepare_for_mongo` (helpers variant). -/
def prepareEntries : MDict → MDict
  | .nil => .nil
  | .cons k v rest =>
    .cons k
      (match v with
       | .dt iso => .str iso
       | .dict d => .dict (prepareEntries d)
       | w => w)
      (prepareEntries rest)
end

/-- The entry loop of `server.py`'s `prepare_for_mongo`. -/
def serverPrepareEntries : MDict → MDict
  | .nil => .nil
  | .cons k v rest =>
    .cons k (match v with | .dt iso => .str iso | w => w)
      (serverPrepareEntries rest)

/-- `prepare_for_mongo` from `server.py`: builds a new dict converting only
top-level datetime values; nested dicts are copied untouched; a non-dict
argument is returned unchanged. -/
def server_prepare_for_mongo : MVal → MVal
  | .dict d => .dict (serverPrepareEntries d)
  | v => v

mutual
/-- No datetime occurs anywhere in the value. -/
def MVal.dtFree : MVal → Bool
  | .dt _ => false
  | .str _ => true
  | .other _ => true
  | .dict d => MDict.dtFree d

/-- No datetime occurs anywhere in the dictionary. -/
def MDict.dtFree : MDict → Bool
  | .nil => true
  | .cons _ v rest => MVal.dtFree v && MDict.dtFree rest
end

def prepareEntries_idem : (d : MDict) →
    prepareEntries (prepareEntries d) = prepareEntries d
  | .nil => rfl
  | .cons k v rest => by
    cases v with
    | dt iso => simp [prepareEntries, prepareEntries_idem rest]
    | str s => simp [prepareEntries, prepareEntries_idem rest]
    | other n => simp [prepareEntries, prepareEntries_idem rest]
    | dict d =>
      simp [prepareEntries, prepareEntries_idem d, prepareEntries_idem rest]

def prepare_for_mongo_idem : (v : MVal) →
    prepare_for_mongo (prepare_for_mongo v) = prepare_for_mongo v
  | .dt _ => rfl
  | .str _ => rfl
  | .other _ => rfl
  | .dict d => congrArg MVal.dict (prepareEntries_idem d)

def prepareEntries_dtFree : (d : MDict) →
    MDict.dtFree (prepareEntries d) = true
  | .nil => rfl
  | .cons k v rest => by
    cases v with
    | dt iso => simp [prepareEntries, MDict.dtFree, MVal.dtFree,
        prepareEntries_dtFree rest]
    | str s => simp [prepareEntries, MDict.dtFree, MVal.dtFree,
        prepareEntries_dtFree rest]
    | other n => simp [prepareEntries, MDict.dtFree, MVal.dtFree,
        prepareEntries_dtFree rest]
    | dict d => simp [prepareEntries, MDict.dtFree, MVal.dtFree,
        prepareEntries_dtFree d, prepareEntries_dtFree rest]

def serverPrepareEntries_idem : (d : MDict) →
    serverPrepareEntries (serverPrepareEntries d) = serverPrepareEntries d
  | .nil => rfl
  | .cons k v rest => by
    cases v <;>
      simp [serverPrepareEntries, serverPrepareEntries_idem rest]

/-- C10: `prepare_for_mongo` is idempotent in both variants; on a dict it
replaces each datetime entry by its ISO string, leaves string and other
scalar entries unchanged, and (modular variant only) recurses into nested
dict entries, after which no datetime remains anywhere in the result. -/
theorem prepare_for_mongo_spec :
    (∀ v, prepare_for_mongo (prepare_for_mongo v) = prepare_for_mongo v) ∧
    (∀ v, server_prepare_for_mongo (server_prepare_for_mongo v)
            = server_prepare_for_mongo v) ∧
    (∀ k iso rest, prepareEntries (.cons k (.dt iso) rest)
        = .cons k (.str iso) (prepareEntries rest)) ∧
    (∀ k s rest, prepareEntries (.cons k (.str s) rest)
        = .cons k (.str s) (prepareEntries rest)) ∧
    (∀ k n rest, prepareEntries (.cons k (.other n) rest)
        = .cons k (.other n) (prepareEntries rest)) ∧
    (∀ k d rest, prepareEntries (.cons k (.dict d) rest)
        = .cons k (.dict (prepareEntries d)) (prepareEntries rest)) ∧
    (∀ d, MDict.dtFree (prepareEntries d) = true) ∧
    (∀ k iso rest, serverPrepareEntries (.cons k (.dt iso) rest)
        = .cons k (.str iso) (serverPrepareEntries rest)) ∧
    (∀ k d rest, serverPrepareEntries (.cons k (.dict d) rest)
        = .cons k (.dict d) (serverPrepareEntries rest)) := by
  refine ⟨prepare_for_mongo_idem, ?_, fun _ _ _ => rfl, fun _ _ _ => rfl,
    fun _ _ _ => rfl, fun _ _ _ => rfl, prepareEntries_dtFree,
    fun _ _ _ => rfl, fun _ _ _ => rfl⟩
  intro v
  cases v with
  | dict d => exact congrArg MVal.dict (serverPrepareEntries_idem d)
  | dt iso => rfl
  | str s => rfl
  | other n => rfl

/-! ### WebSocket fan-out

Observer handles are identified by `Nat`; `sendOk ws` tells whether
`ws.send_text` succeeds or raises for handle `ws` during the broadcast.
Both broadcast variants iterate over a copy of the conversation's connection
list, and a handle whose send raises is removed from the live list inside the
same call; a raising send is caught, so the loop itself always completes. -/

/-- The shared loop body: first component is the list of handles the text was
delivered to (in iteration order), second is the live connection list after
the call. -/
def broadcastLoop (sendOk : Nat → Bool) : List Nat → List Nat → List Nat × List Nat
  | [], conns => ([], conns)
  | ws :: rest, conns =>
    if sendOk ws then
      let r := broadcastLoop sendOk rest conns
      (ws :: r.1, r.2)
    else
      broadcastLoop sendOk rest (conns.erase ws)

/-- `ConnectionManager.broadcast` from `app/websocket.py`: iterates over a
copy (`[:]`) of `active_connections[session_id]`, sending to each handle and
removing from the live list any handle whose send raises.  (The source
additionally drops the conversation's dictionary key when the final list is
empty; the registered-handle set is unchanged by that.) -/
def ConnectionManager.broadcast (sendOk : Nat → Bool) (conns : List Nat) :
    List Nat × List Nat :=
  broadcastLoop sendOk conns conns

/-- `broadcast_message` from `server.py`: the same copy-iterate,
remove-on-send-error loop; its membership test before `remove` coincides
with `List.erase`'s no-op on an absent element. -/
def broadcast_message (sendOk : Nat → Bool) (conns : List Nat) :
    List Nat × List Nat :=
  broadcastLoop sendOk conns conns

theorem broadcastLoop_fst (sendOk : Nat → Bool) :
    ∀ l conns, (broadcastLoop sendOk l conns).1 = l.filter sendOk
  | [], _ => rfl
  | ws :: rest, conns => by
    by_cases h : sendOk ws <;>
      simp [broadcastLoop, h, broadcastLoop_fst sendOk rest]

theorem broadcastLoop_snd (sendOk : Nat → Bool) :
    ∀ l conns, conns.Nodup →
      (broadcastLoop sendOk l conns).2
        = conns.filter (fun x => sendOk x || !(l.contains x))
  | [], conns, _ => by simp [broadcastLoop]
  | ws :: rest, conns, hnd => by
    by_cases h : sendOk ws
    · rw [broadcastLoop, if_pos h]
      show (broadcastLoop sendOk rest conns).2 = _
      rw [broadcastLoop_snd sendOk rest conns hnd]
      refine List.filter_congr fun x _ => ?_
      by_cases hxw : x = ws
      · subst hxw; simp [h]
      · simp [List.contains_cons, hxw]
    · rw [broadcastLoop, if_neg h]
      rw [broadcastLoop_snd sendOk rest (conns.erase ws) (hnd.erase ws)]
      rw [hnd.erase_eq_filter ws, List.filter_filter]
      refine List.filter_congr fun x _ => ?_
      by_cases hxw : x = ws
      · subst hxw
        simp [h, List.contains_cons]
      · simp [List.contains_cons, hxw]

/-- C7: broadcasting to a conversation delivers the text to exactly the
registered handles whose send succeeds (in registration order), removes every
handle whose send raises from the live list within the same call (so it is
absent from the registry any later broadcast reads), and delivers only to
handles that were registered; both the modular and the `server.py` variant
behave identically. -/
theorem broadcast_self_healing (sendOk : Nat → Bool) (conns : List Nat)
    (hnd : conns.Nodup) :
    (ConnectionManager.broadcast sendOk conns).1 = conns.filter sendOk ∧
    (ConnectionManager.broadcast sendOk conns).2 = conns.filter sendOk ∧
    (∀ ws ∈ conns, sendOk ws = false →
        ws ∉ (ConnectionManager.broadcast sendOk conns).2) ∧
    (∀ ws ∈ (ConnectionManager.broadcast sendOk conns).1, ws ∈ conns) ∧
    (broadcast_message sendOk conns).1 = conns.filter sendOk ∧
    (broadcast_message sendOk conns).2 = conns.filter sendOk := by
  have hfst : (ConnectionManager.broadcast sendOk conns).1 = conns.filter sendOk :=
    broadcastLoop_fst sendOk conns conns
  have hsnd : (ConnectionManager.broadcast sendOk conns).2 = conns.filter sendOk := by
    rw [ConnectionManager.broadcast, broadcastLoop_snd sendOk conns conns hnd]
    refine List.filter_congr fun x hx => ?_
    have hc : conns.contains x = true := List.elem_eq_true_of_mem hx
    rw [hc]
    simp
  refine ⟨hfst, hsnd, ?_, ?_, hfst, hsnd⟩
  · intro ws _ hfail hmem
    rw [hsnd] at hmem
    have := List.of_mem_filter hmem
    simp [hfail] at this
  · intro ws hmem
    rw [hfst] at hmem
    exact List.mem_of_mem_filter hmem

/-- Witness for C7: one failing handle (`1`) and one healthy handle (`2`);
the text reaches `2` and `1` is removed by the same call. -/
theorem broadcast_self_healing_witness :
    (ConnectionManager.broadcast (fun ws => ws == 2) [1, 2]).1 = [2] ∧
    (ConnectionManager.broadcast (fun ws => ws == 2) [1, 2]).2 = [2] := by
  have h := broadcast_self_healing (fun ws => ws == 2) [1, 2] (by decide)
  exact ⟨h.1.trans (by decide), h.2.1.trans (by decide)⟩

/-! ### Message store, history loading, deletion

`StoredMsg` is one `chat_messages` document (attachment metadata omitted —
no claim depends on `file_info`).  MongoDB's `find(...).sort("timestamp", 1)`
is modelled as a stable ascending sort by timestamp (insertion order
preserved on ties), and `to_list(n)` as taking the first `n` documents of
the sorted cursor. -/

structure StoredMsg where
  session_id : String
  role : String
  content : String
  timestamp : Nat
deriving DecidableEq

def tsLe (a b : StoredMsg) : Prop := a.timestamp ≤ b.timestamp

instance : DecidableRel tsLe := fun a b => Nat.decLe a.timestamp b.timestamp

instance : IsTotal StoredMsg tsLe := ⟨fun a b => Nat.le_total a.timestamp b.timestamp⟩

instance : IsTrans StoredMsg tsLe := ⟨fun _ _ _ => Nat.le_trans⟩

/-- `find(query).sort("timestamp", 1)`: stable ascending sort. -/
def sortByTimestamp (msgs : List StoredMsg) : List StoredMsg :=
  List.insertionSort tsLe msgs

/-- The document list produced by `_load_chat_history`'s query
(`app/services/ai_service.py`): ascending cursor cut off by `to_list(100)`. -/
def loadHistoryDocs (msgs : List StoredMsg) : List StoredMsg :=
  (sortByTimestamp msgs).take 100

/-- `AIService._load_chat_history`: remaps each stored role — `"user"` stays
`"user"`, every other stored role becomes `"model"` — and keeps the content,
accumulating with the source's append loop. -/
def _load_chat_history (msgs : List StoredMsg) : List (String × String) :=
  (loadHistoryDocs msgs).foldl
    (fun history m =>
      history ++ [(if m.role == "user" then "user" else "model", m.content)]) []

/-- The history loading of `server.py`'s `get_ai_response`: ascending cursor
cut off by `to_list(length=200)`; stored `"assistant"` stays `"assistant"`,
every other stored role becomes `"user"`. -/
def server_load_history (msgs : List StoredMsg) : List (String × String) :=
  ((sortByTimestamp msgs).take 200).foldl
    (fun history m =>
      history ++
        [(if m.role == "assistant" then "assistant" else "user", m.content)]) []

/-- The claim's reading of the loader: at most the most RECENT `n` stored
messages in ascending order, stored `"assistant"` mapped to the model-facing
role and every other stored role mapped to `"user"`. -/
def claimLoadHistory (n : Nat) (modelRole : String) (msgs : List StoredMsg) :
    List (String × String) :=
  ((sortByTimestamp msgs).reverse.take n).reverse.map
    (fun m => (if m.role == "assistant" then modelRole else "user", m.content))

theorem foldl_append_map {α β : Type _} (f : α → β) :
    ∀ (l : List α) (acc : List β),
      l.foldl (fun h a => h ++ [f a]) acc = acc ++ l.map f
  | [], acc => by simp
  | a :: l, acc => by simp [foldl_append_map f l]

set_option maxRecDepth 8000 in
/-- Counterexample for C3, modular variant: (i) a stored role other than
`"user"`/`"assistant"` is remapped to `"model"`, not `"user"`; (ii) with 101
stored messages the loader keeps the 100 OLDEST, dropping the most recent
one, whereas the claim keeps the most recent 100. -/
theorem load_chat_history_counterexample :
    _load_chat_history [⟨"s", "system", "x", 0⟩]
        ≠ claimLoadHistory 100 "model" [⟨"s", "system", "x", 0⟩] ∧
    _load_chat_history
        ((List.range 101).map fun i => ⟨"s", "user", toString i, i⟩)
      ≠ claimLoadHistory 100 "model"
          ((List.range 101).map fun i => ⟨"s", "user", toString i, i⟩) := by
  constructor <;> decide

/-- C3 as amended: both loader variants return the oldest `N` stored
messages (`N` = 100 modular, 200 in `server.py`) of the ascending-timestamp
sort — at most `N`, in ascending timestamp order; the modular variant keeps
stored role `"user"` and remaps every other role to `"model"`, the
`server.py` variant keeps `"assistant"` and remaps every other role to
`"user"`; an empty store yields the empty history, not an error. -/
theorem load_chat_history_characterization :
    (∀ msgs, _load_chat_history msgs
        = ((sortByTimestamp msgs).take 100).map
            (fun m => (if m.role == "user" then "user" else "model", m.content))) ∧
    (∀ msgs, server_load_history msgs
        = ((sortByTimestamp msgs).take 200).map
            (fun m =>
              (if m.role == "assistant" then "assistant" else "user", m.content))) ∧
    (∀ msgs, (_load_chat_history msgs).length ≤ 100) ∧
    (∀ msgs, (server_load_history msgs).length ≤ 200) ∧
    (∀ msgs, (loadHistoryDocs msgs).Pairwise tsLe) ∧
    _load_chat_history [] = [] ∧
    server_load_history [] = [] := by
  have hchar : ∀ msgs, _load_chat_history msgs
      = ((sortByTimestamp msgs).take 100).map
          (fun m => (if m.role == "user" then "user" else "model", m.content)) :=
    fun msgs =>
      (foldl_append_map
        (fun m : StoredMsg =>
          (if m.role == "user" then "user" else "model", m.content))
        (loadHistoryDocs msgs) []).trans (by simp [loadHistoryDocs])
  have hserver : ∀ msgs, server_load_history msgs
      = ((sortByTimestamp msgs).take 200).map
          (fun m =>
            (if m.role == "assistant" then "assistant" else "user", m.content)) :=
    fun msgs =>
      (foldl_append_map
        (fun m : StoredMsg =>
          (if m.role == "assistant" then "assistant" else "user", m.content))
        ((sortByTimestamp msgs).take 200) []).trans (by simp)
  refine ⟨hchar, hserver, fun msgs => ?_, fun msgs => ?_, fun msgs => ?_, rfl, rfl⟩
  · rw [hchar]
    simp
  · rw [hserver]
    simp
  · exact List.Pairwise.sublist (List.take_sublist 100 (sortByTimestamp msgs))
      (List.sorted_insertionSort tsLe msgs)

/-- One `chat_sessions`/`chat_messages` store (sessions by id). -/
structure Store where
  sessions : List String
  messages : List StoredMsg
deriving DecidableEq

/-- `get_chat_messages` (`app/routes/chat.py` and identically `server.py`):
the session's messages, ascending by timestamp, `to_list(1000)`. -/
def get_chat_messages (st : Store) (sid : String) : List StoredMsg :=
  (sortByTimestamp (st.messages.filter (fun m => m.session_id == sid))).take 1000

/-- `delete_chat_session` (`app/routes/chat.py` and identically `server.py`):
`delete_many` removes every message of the session, then `delete_one`
removes the session record; a zero deleted count raises HTTP 404.  First
component: the store after the call (the message deletion happens even on
the 404 path, as in the source); second: the HTTP outcome. -/
def delete_chat_session (st : Store) (sid : String) : Store × Except Nat String :=
  let messages := st.messages.filter (fun m => !(m.session_id == sid))
  let deletedCount := if st.sessions.contains sid then 1 else 0
  let sessions := st.sessions.erase sid
  (⟨sessions, messages⟩,
   if deletedCount = 0 then .error 404
   else .ok "Chat session deleted successfully")

/-- C8: deleting an existing conversation succeeds, removes its session
record (under unique ids) and all its messages, so a subsequent
`get_chat_messages` for that id returns the empty list; deleting an unknown
id fails with HTTP 404. -/
theorem delete_chat_session_spec (st : Store) (sid : String) :
    (sid ∈ st.sessions →
        (delete_chat_session st sid).2 = .ok "Chat session deleted successfully" ∧
        get_chat_messages (delete_chat_session st sid).1 sid = [] ∧
        (st.sessions.Nodup → sid ∉ (delete_chat_session st sid).1.sessions)) ∧
    (sid ∉ st.sessions → (delete_chat_session st sid).2 = .error 404) := by
  constructor
  · intro hmem
    refine ⟨?_, ?_, fun hnd => ?_⟩
    · simp [delete_chat_session, hmem]
    · have hnil :
          (st.messages.filter (fun m => !(m.session_id == sid))).filter
            (fun m => m.session_id == sid) = [] := by
        refine List.filter_eq_nil_iff.mpr fun m hm => ?_
        have := List.of_mem_filter hm
        simpa using this
      simp [get_chat_messages, delete_chat_session, hnil, sortByTimestamp]
    · simpa [delete_chat_session] using hnd.not_mem_erase
  · intro hmem
    simp [delete_chat_session, hmem]

/-- Witness for C8 at a concrete store. -/
theorem delete_chat_session_spec_witness :
    (delete_chat_session ⟨["s1"], [⟨"s1", "user", "hi", 0⟩]⟩ "s1").2
        = .ok "Chat session deleted successfully" ∧
    get_chat_messages
        (delete_chat_session ⟨["s1"], [⟨"s1", "user", "hi", 0⟩]⟩ "s1").1 "s1"
      = [] := by
  have h := (delete_chat_session_spec ⟨["s1"], [⟨"s1", "user", "hi", 0⟩]⟩ "s1").1
    (by decide)
  exact ⟨h.1, h.2.1⟩

/-! ### Generation orchestrator (`AIService.generate_response`)

The Gemini backend is abstracted as an oracle `call : Nat → Nat → CallOutcome`
giving the outcome of `chat.send_message` for candidate-model index and
attempt index.  (Model construction and `start_chat` never raise in this
model; the oracle covers the delivery attempt, which is where the retry,
safety-block and rate-limit logic lives.)

The crucial control-flow point, faithfully embedded: the
`HTTPException(400)` raised on `BlockedPromptException` inside the retry
loop is itself an `Exception`, so it is caught by the enclosing per-model
`except Exception` handler, which records it as `last_error` and advances to
the next candidate model — exactly like a `break` with `last_error` set. -/

/-- `Config.AI_MAX_RETRIES` from `app/config.py`. -/
def AI_MAX_RETRIES : Nat := 3

/-- `Config.AI_MODEL_NAMES` from `app/config.py`. -/
def AI_MODEL_NAMES : List String := ["gemini-2.0-flash", "gemini-1.5-flash"]

/-- Outcome of one `chat.send_message` invocation. -/
inductive CallOutcome where
  | ok (text : String)
  | blockedPrompt (msg : String)
  | err (msg : String)
deriving DecidableEq

/-- A Python exception value as far as `generate_response` can observe it. -/
inductive PyErr where
  | httpExc (status : Nat) (detail : String)
  | exc (msg : String)
deriving DecidableEq

/-- `str.strip()` (ASCII whitespace; the texts of interest contain no exotic
Unicode whitespace). -/
def pyStrip (s : String) : String :=
  String.mk (((s.data.dropWhile Char.isWhitespace).reverse.dropWhile
    Char.isWhitespace).reverse)

/-- `"429" in str(e) or "quota" in str(e).lower()`. -/
def isRateLimitMsg (msg : String) : Bool :=
  listInfix "429".data msg.data || listInfix "quota".data (pyLower msg).data

/-- `str(e)` for the error kept in `last_error` (Starlette renders an
`HTTPException` as `"<status>: <detail>"`); `str(None)` is `"None"`. -/
def pyStrErr : Option PyErr → String
  | none => "None"
  | some (.httpExc status detail) => toString status ++ ": " ++ detail
  | some (.exc msg) => msg

/-- Observable actions of one `generate_response` run. -/
inductive GenEvent where
  | callModel (model : Nat) (attempt : Nat)
  | sleep (seconds : Nat)
deriving DecidableEq

/-- Result of the inner `for attempt in range(AI_MAX_RETRIES)` loop for one
candidate model: a returned reply, a recorded `last_error` (either the
caught-and-swallowed `HTTPException(400)` of a safety block, or the `break`
on a non-retryable / final-attempt error), or a fall-through without any
iteration (only possible if the retry ceiling were 0). -/
inductive InnerResult where
  | success (text : String)
  | failed (e : PyErr)
  | fellThrough
deriving DecidableEq

/-- The body of the retry loop of `generate_response` on candidate model
`m`; `remaining` counts the attempt indices left in
`range(AI_MAX_RETRIES)` (so `remaining = AI_MAX_RETRIES - attempt`): on
success return the stripped text; on a safety block record
`HTTPException(400, "Content blocked due to safety filters")`; on a
rate-limit error strictly before the final attempt sleep `2 ** attempt`
seconds and retry; otherwise record the error and stop. -/
def sendAttemptLoopAux (call : Nat → Nat → CallOutcome) (m : Nat) :
    Nat → Nat → List GenEvent × InnerResult
  | 0, _ => ([], .fellThrough)
  | r + 1, attempt =>
    match call m attempt with
    | .ok text => ([.callModel m attempt], .success (pyStrip text))
    | .blockedPrompt _ =>
      ([.callModel m attempt],
       .failed (.httpExc 400 "Content blocked due to safety filters"))
    | .err msg =>
      if isRateLimitMsg msg && attempt < AI_MAX_RETRIES - 1 then
        let rest := sendAttemptLoopAux call m r (attempt + 1)
        (.callModel m attempt :: .sleep (2 ^ attempt) :: rest.1, rest.2)
      else
        ([.callModel m attempt], .failed (.exc msg))

/-- `for attempt in range(config.AI_MAX_RETRIES)` on candidate model `m`. -/
def sendAttemptLoop (call : Nat → Nat → CallOutcome) (m : Nat) :
    List GenEvent × InnerResult :=
  sendAttemptLoopAux call m AI_MAX_RETRIES 0

/-- The `for model_name in config.AI_MODEL_NAMES` loop, carrying
`last_error`; models are indexed by position in `AI_MODEL_NAMES`.  After the
last candidate, `HTTPException(503, "AI service unavailable: " +
str(last_error))` is raised. -/
def modelLoop (call : Nat → Nat → CallOutcome) :
    List Nat → Option PyErr → List GenEvent × Except PyErr String
  | [], lastError =>
    ([], .error (.httpExc 503 ("AI service unavailable: " ++ pyStrErr lastError)))
  | m :: rest, lastError =>
    let r := sendAttemptLoop call m
    match r.2 with
    | .success text => (r.1, .ok text)
    | .failed e =>
      let next := modelLoop call rest (some e)
      (r.1 ++ next.1, next.2)
    | .fellThrough =>
      let next := modelLoop call rest lastError
      (r.1 ++ next.1, next.2)

/-- `AIService.generate_response`, as a function of the backend oracle:
the events it performs and its reply or raised `HTTPException`. -/
def generate_response (call : Nat → Nat → CallOutcome) :
    List GenEvent × Except PyErr String :=
  modelLoop call (List.range AI_MODEL_NAMES.length) none

/-- C1, evaluated at the failing input: a safety block on the first
candidate does NOT abort the call with HTTP 400 — the `HTTPException(400)`
is swallowed by the per-model handler, the second candidate is still tried
(and its reply returned), and when every candidate blocks, the final error
is HTTP 503 (wrapping the stringified 400), never a 400. -/
theorem generate_response_blocked_falls_through :
    generate_response
        (fun m _ => if m == 0 then .blockedPrompt "safety" else .ok "fallback reply")
      = ([.callModel 0 0, .callModel 1 0], .ok "fallback reply") ∧
    generate_response (fun _ _ => .blockedPrompt "safety")
      = ([.callModel 0 0, .callModel 1 0],
         .error (.httpExc 503
           "AI service unavailable: 400: Content blocked due to safety filters")) := by
  constructor <;> rfl

/-- C2: the configured retry ceiling is 3; a candidate model that reports a
rate-limit error on every attempt is attempted exactly `AI_MAX_RETRIES = 3`
times, with a sleep of `2 ^ attempt` seconds after attempt `attempt` between
consecutive attempts (1s then 2s; no sleep follows the final attempt), after
which the loop stops on that candidate carrying its last error; and when
every candidate rate-limits on every attempt, the whole call performs that
trace on each candidate in fallback order and raises HTTP 503 carrying the
last underlying error message. -/
theorem generate_response_rate_limit_retries :
    AI_MAX_RETRIES = 3 ∧
    (∀ (call : Nat → Nat → CallOutcome) (m : Nat),
      (∀ a, a < AI_MAX_RETRIES →
          ∃ msg, call m a = .err msg ∧ isRateLimitMsg msg = true) →
      ∃ msgLast, call m 2 = .err msgLast ∧
        sendAttemptLoop call m
          = ([.callModel m 0, .sleep 1, .callModel m 1, .sleep 2, .callModel m 2],
             .failed (.exc msgLast))) ∧
    (∀ call : Nat → Nat → CallOutcome,
      (∀ m a, a < AI_MAX_RETRIES →
          ∃ msg, call m a = .err msg ∧ isRateLimitMsg msg = true) →
      ∃ msgLast, call 1 2 = .err msgLast ∧
        generate_response call
          = ([.callModel 0 0, .sleep 1, .callModel 0 1, .sleep 2, .callModel 0 2,
              .callModel 1 0, .sleep 1, .callModel 1 1, .sleep 2, .callModel 1 2],
             .error (.httpExc 503 ("AI service unavailable: " ++ msgLast)))) := by
  have hloop : ∀ (call : Nat → Nat → CallOutcome) (m : Nat),
      (∀ a, a < AI_MAX_RETRIES →
          ∃ msg, call m a = .err msg ∧ isRateLimitMsg msg = true) →
      ∃ msgLast, call m 2 = .err msgLast ∧
        sendAttemptLoop call m
          = ([.callModel m 0, .sleep 1, .callModel m 1, .sleep 2, .callModel m 2],
             .failed (.exc msgLast)) := by
    intro call m hrl
    obtain ⟨msg0, h0, r0⟩ := hrl 0 (by decide)
    obtain ⟨msg1, h1, r1⟩ := hrl 1 (by decide)
    obtain ⟨msg2, h2, r2⟩ := hrl 2 (by decide)
    refine ⟨msg2, h2, ?_⟩
    show sendAttemptLoopAux call m AI_MAX_RETRIES 0 = _
    simp only [AI_MAX_RETRIES, sendAttemptLoopAux]
    rw [h0, h1, h2]
    simp [r0, r1, r2]
  refine ⟨rfl, hloop, ?_⟩
  intro call hrl
  obtain ⟨msgA, hA, eA⟩ := hloop call 0 (hrl 0)
  obtain ⟨msgB, hB, eB⟩ := hloop call 1 (hrl 1)
  refine ⟨msgB, hB, ?_⟩
  have hrange : List.range AI_MODEL_NAMES.length = [0, 1] := by decide
  simp [generate_response, hrange, modelLoop, eA, eB, pyStrErr]

/-- Witness for C2: an oracle that rate-limits every attempt on every model
produces the full ten-event trace and a 503 carrying the last error. -/
theorem generate_response_rate_limit_retries_witness :
    generate_response (fun _ _ => .err "429")
      = ([.callModel 0 0, .sleep 1, .callModel 0 1, .sleep 2, .callModel 0 2,
          .callModel 1 0, .sleep 1, .callModel 1 1, .sleep 2, .callModel 1 2],
         .error (.httpExc 503 "AI service unavailable: 429")) := by
  obtain ⟨msgLast, hcall, heq⟩ :=
    generate_response_rate_limit_retries.2.2 (fun _ _ => .err "429")
      (fun m a _ => ⟨"429", rfl, by decide⟩)
  have hm : msgLast = "429" := by
    injection hcall with h
    exact h.symm
  rw [hm] at heq
  exact heq

/-! ### Turn pipelines

Each handler is embedded as a function from its inputs — the session lookup
result (`none`: no session document; `some lang?`: a session whose stored
`language` field is `lang?`), the request fields, and the AI collaborator's
availability/outcome — to the ordered list of store/broadcast actions it
performs plus its HTTP result.  The modular variant's
`CONFIRMATION_MESSAGES`/`LANGUAGE_PROMPT` live in `app/constants.py`, which
is not among the sources; they are passed as parameters `conf` and
`languagePrompt` (modelled from the spec: a fixed per-language canonical
confirmation phrase table and a fixed language-selection prompt). -/

/-- One observable side effect of a turn handler, in execution order. -/
inductive PEvent where
  | updateLanguage (lang : String)
  | insertMessage (role : String) (content : String)
  | aiCall (language : String)
  | broadcastText (text : String)
  | wsSendText (text : String)
deriving DecidableEq

def PEvent.isBroadcast : PEvent → Bool
  | .broadcastText _ => true
  | _ => false

def PEvent.isInsert : PEvent → Bool
  | .insertMessage _ _ => true
  | _ => false

/-- Python `str.capitalize()`: first character upper-cased, the rest
lower-cased (ASCII; the supported-language names are ASCII). -/
def pyCapitalize (s : String) : String :=
  match s.data with
  | [] => ""
  | c :: cs => String.mk (c.toUpper :: cs.map Char.toLower)

/-- `", ".join(...)`. -/
def joinComma : List String → String
  | [] => ""
  | [s] => s
  | s :: rest => s ++ ", " ++ joinComma rest

/-- `CONFIRMATION_MESSAGES` from `server.py`. -/
def CONFIRMATION_MESSAGES : List (String × String) := [
  ("english", "Language has been changed to English. You can now talk to me in English. Do you have any health-related questions?"),
  ("hindi", "भाषा हिंदी में बदल दी गई है। अब आप मुझसे हिंदी में बात कर सकते हैं। आपका कोई स्वास्थ्य संबंधी प्रश्न है?"),
  ("spanish", "El idioma se ha cambiado a español. Ahora puede hablar conmigo en español. ¿Tiene alguna pregunta relacionada con la salud?"),
  ("tamil", "மொழி தமிழுக்கு மாற்றப்பட்டது. இப்போது நீங்கள் என்னுடன் தமிழில் பேசலாம். உங்கள் உடல்நலம் தொடர்பான கேள்விகள் உள்ளனவா?"),
  ("telugu", "భాష తెలుగుకు మార్చబడింది. ఇప్పుడు మీరు నాతో తెలుగులో మాట్లాడవచ్చు. మీ ఆరోగ్య సంబంధిత ప్రశ్నలు ఉన్నాయా?"),
  ("kannada", "ಭಾಷೆಯನ್ನು ಕನ್ನಡಕ್ಕೆ ಬದಲಿಸಲಾಗಿತ್ತು. ಈಗ ನೀವು ನನ್ನೊಂದಿಗೆ ಕನ್ನಡದಲ್ಲಿ ಮಾತನಾಡಬಹುದು. ನಿಮ್ಮ ಆರೋಗ್ಯ ಸಂಬಂಧಿತ ಪ್ರಶ್ನೆಗಳಿವೆಯೇ?"),
  ("malayalam", "ഭാഷ മലയാളത്തിലേക്ക് മാറ്റി. ഇപ്പോൾ നിങ്ങൾക്ക് എന്നോട് മലയാളത്തിൽ സംസാരിക്കാം. നിങ്ങളുടെ ആരോഗ്യ സംബന്ധമായ ചോദ്യങ്ങൾ ഉണ്ടോ?"),
  ("punjabi", "ਭਾਸ਼ਾ ਨੂੰ ਪੰਜਾਬੀ ਵਿੱਚ ਬਦਲ ਦਿੱਤਾ ਗਿਆ ਹੈ। ਹੁਣ ਤੁਸੀਂ ਮੇਰੇ ਨਾਲ ਪੰਜਾਬੀ ਵਿੱਚ ਗੱਲ ਕਰ ਸਕਦੇ ਹੋ। ਕੀ ਤੁਹਾਡੇ ਕੋਲ ਕੋਈ ਸਿਹਤ ਸੰਬੰਧੀ ਸਵਾਲ ਹਨ?"),
  ("gujarati", "ભાષા ગુજરાતીમાં બદલી દીધી છે. હવે તમે મારી સાથે ગુજરાતીમાં વાત કરી શકો છો. તમારા આરોગ્ય સંબંધિત કોઈ પ્રશ્નો છે?"),
  ("marathi", "भाषा मराठीत बदलली आहे. आता तुम्ही माझ्याशी मराठीत बोलू शकता. तुमचे आरोग्याशी संबंधित काही प्रश्न आहेत का?"),
  ("bengali", "ভাষা বাংলায় পরিবর্তন করা হয়েছে। এখন আপনি আমার সাথে বাংলায় কথা বলতে পারেন। আপনার স্বাস্থ্য সম্পর্কিত কোনো প্রশ্ন আছে?"),
  ("odia", "ଭାଷା ଓଡ଼ିଆରେ ବଦଳାଇ ଦିଆଗଲା। ଏବେ ଆପଣ ମୋ ସହିତ ଓଡ଼ିଆରେ କଥାବାର୍ତ୍ତା କରିପାରିବେ। ଆପଣଙ୍କର ସ୍ୱାସ୍ଥ୍ୟ ସମ୍ବନ୍ଧୀୟ କୌଣସି ପ୍ରଶ୍ନ ଅଛି କି?"),
  ("assamese", "ভাষা অসমীয়ালৈ সলনি কৰা হৈছে। এতিয়া আপুনি মোৰ লগত অসমীয়াত কথা পাতিব পাৰে। আপোনাৰ স্বাস্থ্য সম্পৰ্কীয় কোনো প্ৰশ্ন আছে নেকি?"),
  ("urdu", "زبان تبدیل کر دی گئی ہے۔ اب آپ مجھ سے اس زبان میں بات کر سکتے ہیں۔ کیا آپ کے پاس صحت سے متعلق کوئی سوال ہے؟"),
  ("chinese", "语言已更改为中文。您现在可以用中文与我交谈。您有任何健康相关的问题吗？"),
  ("arabic", "تم تغيير اللغة إلى العربية. يمكنك الآن التحدث معي بالعربية. هل لديك أي أسئلة متعلقة بالصحة؟"),
  ("japanese", "言語が日本語に変更されました。これから日本語でお話しいただけます。健康に関するご質問はありますか？")
]

/-- `CONFIRMATION_MESSAGES.get(lang)` on the `server.py` table. -/
def confirmationFor (lang : String) : Option String :=
  (CONFIRMATION_MESSAGES.find? (fun kv => kv.1 == lang)).map (·.2)

/-- The language-selection prompt of `server.py`'s `send_message`. -/
def serverLanguagePrompt : String :=
  "Hello! To provide the best assistance, what is your preferred language? Examples: "
    ++ joinComma (SUPPORTED_LANGUAGES.map pyCapitalize) ++ "."

/-- The language-selection prompt of `server.py`'s `websocket_endpoint`. -/
def serverWsPrompt : String :=
  "Hello! Preferred language? Examples: "
    ++ joinComma (SUPPORTED_LANGUAGES.map pyCapitalize) ++ "."

/-- The tail of `app/routes/chat.py`'s `send_message` once the
language-switch check has not fired: prompt turn when no language is
resolved, otherwise persist the user message and call the AI service
(503 if it is unavailable; its `HTTPException` re-raised on failure). -/
def send_message_normal (languagePrompt : String) (lang : Option String)
    (message : String) (aiAvailable : Bool) (aiOutcome : Except PyErr String) :
    List PEvent × Except PyErr (String × String) :=
  match lang with
  | none =>
    ([.insertMessage "user" message, .insertMessage "assistant" languagePrompt],
     .ok (message, languagePrompt))
  | some l =>
    if aiAvailable then
      match aiOutcome with
      | .ok text =>
        ([.insertMessage "user" message, .aiCall l, .insertMessage "assistant" text],
         .ok (message, text))
      | .error e => ([.insertMessage "user" message, .aiCall l], .error e)
    else
      ([.insertMessage "user" message],
       .error (.httpExc 503 "AI service is not available"))

/-- `send_message` from `app/routes/chat.py`.  `session` is the session
lookup result; `aiOutcome` the generation result were the AI called. -/
def send_message (conf : String → Option String) (languagePrompt : String)
    (session : Option (Option String)) (message : String)
    (reqLanguage : Option String) (aiAvailable : Bool)
    (aiOutcome : Except PyErr String) :
    List PEvent × Except PyErr (String × String) :=
  match session with
  | none => ([], .error (.httpExc 404 "Session not found"))
  | some sessionLang =>
    let lang := match reqLanguage with | some l => some l | none => sessionLang
    match detect_language_preference message with
    | some detected =>
      if SUPPORTED_LANGUAGES.contains detected then
        let reply := (conf detected).getD
          ("Language changed to " ++ pyCapitalize detected ++ ".")
        ([.updateLanguage detected, .insertMessage "user" message,
          .insertMessage "assistant" reply], .ok (message, reply))
      else send_message_normal languagePrompt lang message aiAvailable aiOutcome
    | none => send_message_normal languagePrompt lang message aiAvailable aiOutcome

/-- The language-switch turn of `server.py`'s `send_message`. -/
def serverSwitchTurn (detected message : String) :
    List PEvent × Except PyErr (String × String) :=
  let confirmationMsg := (confirmationFor detected).getD
    ("Language changed to " ++ detected ++ ".")
  ([.updateLanguage detected, .insertMessage "user" message,
    .insertMessage "assistant" confirmationMsg, .broadcastText confirmationMsg],
   .ok (message, confirmationMsg))

/-- The ask-for-language turn of `server.py`'s `send_message`. -/
def serverPromptTurn (message : String) :
    List PEvent × Except PyErr (String × String) :=
  ([.insertMessage "user" message, .insertMessage "assistant" serverLanguagePrompt,
    .broadcastText serverLanguagePrompt], .ok (message, serverLanguagePrompt))

/-- The regular AI turn of `server.py`'s `send_message`
(`current_language or "english"`; `get_ai_response` never raises —
it returns an error string instead). -/
def serverAiTurn (l : String) (message : String) (aiText : String) :
    List PEvent × Except PyErr (String × String) :=
  let effective := if l == "" then "english" else l
  ([.insertMessage "user" message, .aiCall effective,
    .insertMessage "assistant" aiText, .broadcastText aiText],
   .ok (message, aiText))

/-- `send_message` from `server.py`. -/
def server_send_message (session : Option (Option String)) (message : String)
    (reqLanguage : Option String) (aiText : String) :
    List PEvent × Except PyErr (String × String) :=
  match session with
  | none => ([], .error (.httpExc 404 "Chat session not found"))
  | some sessionLang =>
    let currentLanguage :=
      match reqLanguage with | some l => some l | none => sessionLang
    match currentLanguage with
    | none =>
      match server_detect_language_preference message with
      | some detected =>
        if SUPPORTED_LANGUAGES.contains detected then serverSwitchTurn detected message
        else serverPromptTurn message
      | none => serverPromptTurn message
    | some l =>
      match server_detect_language_preference message with
      | some detected =>
        if SUPPORTED_LANGUAGES.contains detected then serverSwitchTurn detected message
        else serverAiTurn l message aiText
      | none => serverAiTurn l message aiText

/-- The tail of one message iteration of `app/websocket.py`'s
`handle_websocket` once the language-switch check has not fired.  An AI
failure propagates out of the receive loop (the connection is dropped), so
the events stop after the AI call. -/
def handle_websocket_rest (languagePrompt : String) (lang : Option String)
    (msg : String) (aiAvailable : Bool) (aiOutcome : Except PyErr String) :
    List PEvent :=
  match lang with
  | none =>
    [.insertMessage "user" msg, .insertMessage "assistant" languagePrompt,
     .broadcastText languagePrompt]
  | some l =>
    if aiAvailable then
      match aiOutcome with
      | .ok text =>
        [.insertMessage "user" msg, .aiCall l, .insertMessage "assistant" text,
         .broadcastText text]
      | .error _ => [.insertMessage "user" msg, .aiCall l]
    else [.insertMessage "user" msg, .wsSendText "AI service is not available"]

/-- One message iteration of `app/websocket.py`'s `handle_websocket`. -/
def handle_websocket_turn (conf : String → Option String)
    (languagePrompt : String) (session : Option (Option String)) (msg : String)
    (aiAvailable : Bool) (aiOutcome : Except PyErr String) : List PEvent :=
  match session with
  | none => [.wsSendText "Session not found"]
  | some lang =>
    match detect_language_preference msg with
    | some detected =>
      if SUPPORTED_LANGUAGES.contains detected then
        let reply := (conf detected).getD
          ("Language changed to " ++ pyCapitalize detected ++ ".")
        [.updateLanguage detected, .insertMessage "user" msg,
         .insertMessage "assistant" reply, .broadcastText reply]
      else handle_websocket_rest languagePrompt lang msg aiAvailable aiOutcome
    | none => handle_websocket_rest languagePrompt lang msg aiAvailable aiOutcome

/-- The language-switch reaction of `server.py`'s `websocket_endpoint`: it
updates the language and broadcasts the confirmation but persists neither
message. -/
def wsSwitch (detected : String) : List PEvent :=
  [.updateLanguage detected,
   .broadcastText ((confirmationFor detected).getD
     ("Language changed to " ++ detected ++ "."))]

/-- The no-language branch of `server.py`'s `websocket_endpoint`
(`if not current_language`). -/
def wsNoLang (data : String) : List PEvent :=
  match server_detect_language_preference data with
  | some detected => wsSwitch detected
  | none => [.broadcastText serverWsPrompt]

/-- One message iteration of `server.py`'s `websocket_endpoint`.  `session`
as above; `if not current_language` treats both a missing and an empty
stored language as unset. -/
def server_websocket_turn (session : Option (Option String)) (data : String)
    (aiText : String) : List PEvent :=
  match session with
  | none => [.wsSendText "Session not found"]
  | some currentLanguage =>
    match currentLanguage with
    | none => wsNoLang data
    | some s =>
      if s == "" then wsNoLang data
      else
        match server_detect_language_preference data with
        | some detected => wsSwitch detected
        | none =>
          [.insertMessage "user" data, .aiCall s,
           .insertMessage "assistant" aiText, .broadcastText aiText]

theorem send_message_normal_ai_shape (languagePrompt : String)
    (lang : Option String) (message : String) (aiAvailable : Bool)
    (aiOutcome : Except PyErr String) (l : String)
    (h : PEvent.aiCall l ∈ (send_message_normal languagePrompt lang message
        aiAvailable aiOutcome).1) :
    ∃ rest, (send_message_normal languagePrompt lang message aiAvailable
        aiOutcome).1
      = PEvent.insertMessage "user" message :: PEvent.aiCall l :: rest := by
  cases lang with
  | none => simp [send_message_normal] at h
  | some s =>
    cases aiAvailable with
    | false => simp [send_message_normal] at h
    | true =>
      cases aiOutcome with
      | ok text =>
        simp [send_message_normal] at h
        subst h
        exact ⟨[.insertMessage "assistant" text], rfl⟩
      | error e =>
        simp [send_message_normal] at h
        subst h
        exact ⟨[], rfl⟩

theorem handle_websocket_rest_ai_shape (languagePrompt : String)
    (lang : Option String) (msg : String) (aiAvailable : Bool)
    (aiOutcome : Except PyErr String) (l : String)
    (h : PEvent.aiCall l ∈ handle_websocket_rest languagePrompt lang msg
        aiAvailable aiOutcome) :
    ∃ rest, handle_websocket_rest languagePrompt lang msg aiAvailable aiOutcome
      = PEvent.insertMessage "user" msg :: PEvent.aiCall l :: rest := by
  cases lang with
  | none => simp [handle_websocket_rest] at h
  | some s =>
    cases aiAvailable with
    | false => simp [handle_websocket_rest] at h
    | true =>
      cases aiOutcome with
      | ok text =>
        simp [handle_websocket_rest] at h
        subst h
        exact ⟨[.insertMessage "assistant" text, .broadcastText text], rfl⟩
      | error e =>
        simp [handle_websocket_rest] at h
        subst h
        exact ⟨[], rfl⟩

/-- C4: on every handler path that invokes the generation backend — the
modular HTTP route, the `server.py` HTTP route, and both websocket handlers
— the event list starts with the user-message insert followed immediately by
the AI call, so the user message is persisted strictly before the AI
invocation and before any broadcast; and when generation fails on the
modular paths, the run keeps the persisted user message, performs nothing
after the AI call (in particular inserts no assistant message), and the
route re-raises the generation error. -/
theorem user_message_persisted_first :
    (∀ conf languagePrompt session message reqLanguage aiAvailable aiOutcome l,
      PEvent.aiCall l ∈ (send_message conf languagePrompt session message
          reqLanguage aiAvailable aiOutcome).1 →
      ∃ rest, (send_message conf languagePrompt session message reqLanguage
          aiAvailable aiOutcome).1
        = PEvent.insertMessage "user" message :: PEvent.aiCall l :: rest) ∧
    (∀ session message reqLanguage aiText l,
      PEvent.aiCall l ∈ (server_send_message session message reqLanguage aiText).1 →
      ∃ rest, (server_send_message session message reqLanguage aiText).1
        = PEvent.insertMessage "user" message :: PEvent.aiCall l :: rest) ∧
    (∀ conf languagePrompt session msg aiAvailable aiOutcome l,
      PEvent.aiCall l ∈ handle_websocket_turn conf languagePrompt session msg
          aiAvailable aiOutcome →
      ∃ rest, handle_websocket_turn conf languagePrompt session msg aiAvailable
          aiOutcome
        = PEvent.insertMessage "user" msg :: PEvent.aiCall l :: rest) ∧
    (∀ session data aiText l,
      PEvent.aiCall l ∈ server_websocket_turn session data aiText →
      ∃ rest, server_websocket_turn session data aiText
        = PEvent.insertMessage "user" data :: PEvent.aiCall l :: rest) ∧
    (∀ conf languagePrompt session message reqLanguage e l,
      PEvent.aiCall l ∈ (send_message conf languagePrompt session message
          reqLanguage true (.error e)).1 →
      send_message conf languagePrompt session message reqLanguage true (.error e)
        = ([PEvent.insertMessage "user" message, PEvent.aiCall l], .error e)) ∧
    (∀ conf languagePrompt session msg e l,
      PEvent.aiCall l ∈ handle_websocket_turn conf languagePrompt session msg
          true (.error e) →
      handle_websocket_turn conf languagePrompt session msg true (.error e)
        = [PEvent.insertMessage "user" msg, PEvent.aiCall l]) := by
  refine ⟨?_, ?_, ?_, ?_, ?_, ?_⟩
  · intro conf languagePrompt session message reqLanguage aiAvailable aiOutcome l h
    cases session with
    | none => simp [send_message] at h
    | some sessionLang =>
      cases hd : detect_language_preference message with
      | some d =>
        by_cases hs : d ∈ SUPPORTED_LANGUAGES
        · simp [send_message, hd, hs] at h
        · simp only [send_message, hd] at h ⊢
          rw [if_neg (by simpa using hs)] at h ⊢
          exact send_message_normal_ai_shape _ _ _ _ _ _ h
      | none =>
        simp only [send_message, hd] at h ⊢
        exact send_message_normal_ai_shape _ _ _ _ _ _ h
  · intro session message reqLanguage aiText l h
    cases session with
    | none => simp [server_send_message] at h
    | some sessionLang =>
      rcases reqLanguage with _ | rl
      · rcases sessionLang with _ | sl
        · cases hd : server_detect_language_preference message with
          | some d =>
            by_cases hs : d ∈ SUPPORTED_LANGUAGES
            · simp [server_send_message, hd, hs, serverSwitchTurn] at h
            · simp only [server_send_message, hd] at h
              rw [if_neg (by simpa using hs)] at h
              simp [serverPromptTurn] at h
          | none => simp [server_send_message, hd, serverPromptTurn] at h
        · cases hd : server_detect_language_preference message with
          | some d =>
            by_cases hs : d ∈ SUPPORTED_LANGUAGES
            · simp [server_send_message, hd, hs, serverSwitchTurn] at h
            · simp only [server_send_message, hd] at h ⊢
              rw [if_neg (by simpa using hs)] at h ⊢
              simp [serverAiTurn] at h
              subst h
              exact ⟨[.insertMessage "assistant" aiText, .broadcastText aiText],
                by simp [serverAiTurn]⟩
          | none =>
            simp only [server_send_message, hd] at h ⊢
            simp [serverAiTurn] at h
            subst h
            exact ⟨[.insertMessage "assistant" aiText, .broadcastText aiText],
                by simp [serverAiTurn]⟩
      · cases hd : server_detect_language_preference message with
        | some d =>
          by_cases hs : d ∈ SUPPORTED_LANGUAGES
          · simp [server_send_message, hd, hs, serverSwitchTurn] at h
          · simp only [server_send_message, hd] at h ⊢
            rw [if_neg (by simpa using hs)] at h ⊢
            simp [serverAiTurn] at h
            subst h
            exact ⟨[.insertMessage "assistant" aiText, .broadcastText aiText],
                by simp [serverAiTurn]⟩
        | none =>
          simp only [server_send_message, hd] at h ⊢
          simp [serverAiTurn] at h
          subst h
          exact ⟨[.insertMessage "assistant" aiText, .broadcastText aiText],
            by simp [serverAiTurn]⟩
  · intro conf languagePrompt session msg aiAvailable aiOutcome l h
    cases session with
    | none => simp [handle_websocket_turn] at h
    | some lang =>
      cases hd : detect_language_preference msg with
      | some d =>
        by_cases hs : d ∈ SUPPORTED_LANGUAGES
        · simp [handle_websocket_turn, hd, hs] at h
        · simp only [handle_websocket_turn, hd] at h ⊢
          rw [if_neg (by simpa using hs)] at h ⊢
          exact handle_websocket_rest_ai_shape _ _ _ _ _ _ h
      | none =>
        simp only [handle_websocket_turn, hd] at h ⊢
        exact handle_websocket_rest_ai_shape _ _ _ _ _ _ h
  · intro session data aiText l h
    cases session with
    | none => simp [server_websocket_turn] at h
    | some currentLanguage =>
      cases currentLanguage with
      | none =>
        cases hd : server_detect_language_preference data with
        | some d => simp [server_websocket_turn, wsNoLang, wsSwitch, hd] at h
        | none => simp [server_websocket_turn, wsNoLang, hd] at h
      | some s =>
        cases he : (s == "") with
        | true =>
          cases hd : server_detect_language_preference data with
          | some d => simp [server_websocket_turn, wsNoLang, wsSwitch, he, hd] at h
          | none => simp [server_websocket_turn, wsNoLang, he, hd] at h
        | false =>
          cases hd : server_detect_language_preference data with
          | some d => simp [server_websocket_turn, wsSwitch, he, hd] at h
          | none =>
            simp only [server_websocket_turn, he, hd] at h ⊢
            simp at h
            subst h
            exact ⟨_, rfl⟩
  · intro conf languagePrompt session message reqLanguage e l h
    cases session with
    | none => simp [send_message] at h
    | some sessionLang =>
      have hnorm : ∀ lang : Option String,
          PEvent.aiCall l ∈ (send_message_normal languagePrompt lang message
            true (.error e)).1 →
          send_message_normal languagePrompt lang message true (.error e)
            = ([PEvent.insertMessage "user" message, PEvent.aiCall l], .error e) := by
        intro lang hmem
        cases lang with
        | none => simp [send_message_normal] at hmem
        | some s =>
          simp [send_message_normal] at hmem
          subst hmem
          rfl
      cases hd : detect_language_preference message with
      | some d =>
        by_cases hs : d ∈ SUPPORTED_LANGUAGES
        · simp [send_message, hd, hs] at h
        · simp only [send_message, hd] at h ⊢
          rw [if_neg (by simpa using hs)] at h ⊢
          exact hnorm _ h
      | none =>
        simp only [send_message, hd] at h ⊢
        exact hnorm _ h
  · intro conf languagePrompt session msg e l h
    cases session with
    | none => simp [handle_websocket_turn] at h
    | some lang =>
      have hrest : ∀ hmem : PEvent.aiCall l ∈ handle_websocket_rest
          languagePrompt lang msg true (.error e),
          handle_websocket_rest languagePrompt lang msg true (.error e)
            = [PEvent.insertMessage "user" msg, PEvent.aiCall l] := by
        intro hmem
        cases lang with
        | none => simp [handle_websocket_rest] at hmem
        | some s =>
          simp [handle_websocket_rest] at hmem
          subst hmem
          rfl
      cases hd : detect_language_preference msg with
      | some d =>
        by_cases hs : d ∈ SUPPORTED_LANGUAGES
        · simp [handle_websocket_turn, hd, hs] at h
        · simp only [handle_websocket_turn, hd] at h ⊢
          rw [if_neg (by simpa using hs)] at h ⊢
          exact hrest h
      | none =>
        simp only [handle_websocket_turn, hd] at h ⊢
        exact hrest h

/-- Witness for C4: a concrete normal AI turn on each handler shape, and a
concrete failing generation on the modular route. -/
theorem user_message_persisted_first_witness :
    (∃ rest, (send_message confirmationFor serverLanguagePrompt
        (some (some "english")) "hello" none true (.ok "reply")).1
      = PEvent.insertMessage "user" "hello" :: PEvent.aiCall "english" :: rest) ∧
    send_message confirmationFor serverLanguagePrompt (some (some "english"))
        "hello" none true (.error (.httpExc 503 "down"))
      = ([PEvent.insertMessage "user" "hello", PEvent.aiCall "english"],
         .error (.httpExc 503 "down")) :=
  ⟨user_message_persisted_first.1 confirmationFor serverLanguagePrompt
      (some (some "english")) "hello" none true (.ok "reply") "english"
      (by decide),
   user_message_persisted_first.2.2.2.2.1 confirmationFor serverLanguagePrompt
      (some (some "english")) "hello" none (.httpExc 503 "down") "english"
      (by decide)⟩

/-- Counterexample for C5: on a language-switch turn over an existing
conversation, (i) the modular HTTP route (`app/routes/chat.py`) performs no
broadcast at all, and (ii) the `server.py` websocket handler broadcasts the
confirmation but persists neither the user message nor the assistant
message — so the claim's conjunction (persist both AND broadcast) fails on
both cited paths. -/
theorem language_switch_counterexample :
    PEvent.updateLanguage "hindi"
        ∈ (send_message confirmationFor serverLanguagePrompt
            (some (some "english")) "hindi" none true (.ok "x")).1 ∧
    ((send_message confirmationFor serverLanguagePrompt (some (some "english"))
        "hindi" none true (.ok "x")).1.all fun e => !e.isBroadcast) = true ∧
    PEvent.updateLanguage "hindi"
        ∈ server_websocket_turn (some (some "english")) "hindi" "x" ∧
    ((server_websocket_turn (some (some "english")) "hindi" "x").all
        fun e => !e.isInsert) = true := by
  refine ⟨by decide, by decide, by decide, by decide⟩

/-- C5 as amended: a turn whose text the detector maps to a supported
language `d` updates the conversation's stored language to `d` and makes no
generation call on any handler; the modular HTTP route persists the user
message and the confirmation (canonical phrase or the capitalised generic
fallback) but does not broadcast; the `server.py` HTTP route and the modular
websocket handler persist both messages and broadcast the confirmation; the
`server.py` websocket handler broadcasts the confirmation without persisting
either message. -/
theorem language_switch_turn_spec :
    (∀ conf languagePrompt sessionLang message reqLanguage aiAvailable aiOutcome d,
      detect_language_preference message = some d →
      d ∈ SUPPORTED_LANGUAGES →
      send_message conf languagePrompt (some sessionLang) message reqLanguage
          aiAvailable aiOutcome
        = ([.updateLanguage d, .insertMessage "user" message,
            .insertMessage "assistant"
              ((conf d).getD ("Language changed to " ++ pyCapitalize d ++ "."))],
           .ok (message,
             (conf d).getD ("Language changed to " ++ pyCapitalize d ++ ".")))) ∧
    (∀ sessionLang message reqLanguage aiText d,
      server_detect_language_preference message = some d →
      d ∈ SUPPORTED_LANGUAGES →
      server_send_message (some sessionLang) message reqLanguage aiText
        = ([.updateLanguage d, .insertMessage "user" message,
            .insertMessage "assistant"
              ((confirmationFor d).getD ("Language changed to " ++ d ++ ".")),
            .broadcastText
              ((confirmationFor d).getD ("Language changed to " ++ d ++ "."))],
           .ok (message,
             (confirmationFor d).getD ("Language changed to " ++ d ++ ".")))) ∧
    (∀ conf languagePrompt sessionLang msg aiAvailable aiOutcome d,
      detect_language_preference msg = some d →
      d ∈ SUPPORTED_LANGUAGES →
      handle_websocket_turn conf languagePrompt (some sessionLang) msg
          aiAvailable aiOutcome
        = [.updateLanguage d, .insertMessage "user" msg,
           .insertMessage "assistant"
             ((conf d).getD ("Language changed to " ++ pyCapitalize d ++ ".")),
           .broadcastText
             ((conf d).getD ("Language changed to " ++ pyCapitalize d ++ "."))]) ∧
    (∀ s data aiText d, (s == "") = false →
      server_detect_language_preference data = some d →
      server_websocket_turn (some (some s)) data aiText
        = [.updateLanguage d,
           .broadcastText
             ((confirmationFor d).getD ("Language changed to " ++ d ++ "."))]) := by
  refine ⟨?_, ?_, ?_, ?_⟩
  · intro conf languagePrompt sessionLang message reqLanguage aiAvailable aiOutcome d hd hm
    simp [send_message, hd, hm]
  · intro sessionLang message reqLanguage aiText d hd hm
    rcases reqLanguage with _ | rl
    · rcases sessionLang with _ | sl <;>
        simp [server_send_message, hd, hm, serverSwitchTurn]
    · simp [server_send_message, hd, hm, serverSwitchTurn]
  · intro conf languagePrompt sessionLang msg aiAvailable aiOutcome d hd hm
    simp [handle_websocket_turn, hd, hm]
  · intro s data aiText d hse hd
    simp [server_websocket_turn, hse, hd, wsSwitch]

/-- Witness for C5 (amended) at the concrete switch message `"hindi"` on a
conversation whose language is `"english"`. -/
theorem language_switch_turn_spec_witness :
    send_message confirmationFor serverLanguagePrompt (some (some "english"))
        "hindi" none true (.ok "x")
      = ([.updateLanguage "hindi", .insertMessage "user" "hindi",
          .insertMessage "assistant"
            ((confirmationFor "hindi").getD
              ("Language changed to " ++ pyCapitalize "hindi" ++ "."))],
         .ok ("hindi",
           (confirmationFor "hindi").getD
             ("Language changed to " ++ pyCapitalize "hindi" ++ "."))) :=
  language_switch_turn_spec.1 confirmationFor serverLanguagePrompt
    (some "english") "hindi" none true (.ok "x") "hindi" (by decide) (by decide)

end MedIntel
